import Mathlib

/-
Verification of the SDL child-process subsystem
(src/src/process/unix/SDL_process.c and src/src/process/windows/SDL_process.c).

The C code is shallowly embedded: C strings become lists of bytes
(List Nat), file descriptors become Int (the POSIX -1 sentinel is used by
the code itself), Windows HANDLE values become Nat (0 is NULL; CreatePipe
never returns 0 for a handle it creates), and every OS primitive the code
calls (pipe, fork, waitpid, CreatePipe, WaitForSingleObject, ...) is given
an explicit small-step model with failure-injection knobs so that each
control-flow path of the C source is reachable in the embedding.  Functions
that mutate the process structure are embedded as state-passing functions,
and the OS calls a path performs are recorded in an explicit trace.
-/

set_option autoImplicit false

namespace SDLSpec

/-! ### Process creation flags

From include/SDL3/SDL_process.h.  The sources also use
SDL_PROCESS_STDERR_TO_STDOUT, which the header copy in this tree does not
declare; it is modelled as a further distinct bit. -/

def SDL_PROCESS_STDIN : Nat := 1
def SDL_PROCESS_STDOUT : Nat := 2
def SDL_PROCESS_STDERR : Nat := 4
def SDL_PROCESS_ERRORS_TO_STDERR : Nat := 8

/-- Modelled from the spec: the redirection-flag set also contains
STDERR_TO_STDOUT.  The constant is used by both SDL_process.c files but is
missing from the header under src/, so its numeric value is modelled as the
next free bit. -/
def SDL_PROCESS_STDERR_TO_STDOUT : Nat := 16

/-- The test `flags & f` used all over the C sources. -/
def hasFlag (flags f : Nat) : Bool := flags &&& f != 0

/-! ### Windows argument marshaller (join_arguments, windows/SDL_process.c:188) -/

/-- Concatenation of a list of byte strings. -/
def catLists (xss : List (List Nat)) : List Nat := xss.foldr (fun x r => x ++ r) []

/-- Bytes emitted for one input byte by the second pass of join_arguments:
a double quote (34), backslash (92), space (32) or tab (9) is preceded by a
backslash, every other byte is copied (windows/SDL_process.c:225). -/
def escapeChar (c : Nat) : List Nat :=
  if c = 34 ∨ c = 92 ∨ c = 32 ∨ c = 9 then [92, c] else [c]

/-- Bytes emitted for one whole argument by join_arguments. -/
def escapeArg (a : List Nat) : List Nat := (a.map escapeChar).foldr (fun x r => x ++ r) []

/-- Contents of the buffer filled by join_arguments before the final
terminator store: each escaped argument followed by one space
(windows/SDL_process.c:222). -/
def join_arguments_buffer (args : List (List Nat)) : List Nat :=
  catLists (args.map (fun a => escapeArg a ++ [32]))

/-- The length computed by the first pass of join_arguments
(windows/SDL_process.c:194): 2 bytes for each escaped byte, 1 for the rest,
plus 1 separator per argument. -/
def join_arguments_len (args : List (List Nat)) : Nat :=
  (join_arguments_buffer args).length

def SIZE_T_MOD : Nat := 2 ^ 64

/-- Index of the final store result[len - 1] (windows/SDL_process.c:242),
computed in size_t arithmetic: for len = 0 it wraps to SIZE_MAX. -/
def join_arguments_finalIndex (args : List (List Nat)) : Nat :=
  (join_arguments_len args + (SIZE_T_MOD - 1)) % SIZE_T_MOD

/-- The C string handed to CreateProcessA: the buffer with its last byte
overwritten by the NUL terminator (windows/SDL_process.c:242).  For an
empty argument list the store at result[len - 1] is out of bounds; the
returned value here is the string content for the defined cases. -/
def join_arguments (args : List (List Nat)) : List Nat :=
  (join_arguments_buffer args).dropLast

/-! ### The platform argv-splitting rules

Modelled from the spec: the documented Windows command-line splitting rules
(the CommandLineToArgvW / CRT convention): backslashes are literal unless
they precede a double quote; 2n backslashes before a quote yield n
backslashes and the quote toggles quoted mode; 2n+1 backslashes before a
quote yield n backslashes and a literal quote; an unquoted space or tab
separates arguments. -/

structure MsvcState where
  acc : List (List Nat)
  cur : Option (List Nat)
  bs : Nat
  inQ : Bool

/-- Pending backslashes are flushed as literal backslashes when the next
byte is not a double quote. -/
def msvcFlush (cur : Option (List Nat)) (bs : Nat) : Option (List Nat) :=
  if bs = 0 then cur else some (cur.getD [] ++ List.replicate bs 92)

def msvcStep (s : MsvcState) (c : Nat) : MsvcState :=
  if c = 92 then
    { s with bs := s.bs + 1 }
  else if c = 34 then
    let base := s.cur.getD [] ++ List.replicate (s.bs / 2) 92
    if s.bs % 2 = 1 then { s with cur := some (base ++ [34]), bs := 0 }
    else { s with cur := some base, bs := 0, inQ := !s.inQ }
  else if (c = 32 ∨ c = 9) ∧ ¬s.inQ then
    match msvcFlush s.cur s.bs with
    | none => { s with bs := 0 }
    | some t => { acc := s.acc ++ [t], cur := none, bs := 0, inQ := false }
  else
    { s with cur := some (s.cur.getD [] ++ List.replicate s.bs 92 ++ [c]), bs := 0 }

/-- Split a command line into arguments under the documented rules. -/
def msvcSplit (s : List Nat) : List (List Nat) :=
  let fin := s.foldl msvcStep ⟨[], none, 0, false⟩
  match msvcFlush fin.cur fin.bs with
  | none => fin.acc
  | some t => fin.acc ++ [t]

/-! ### Windows environment marshaller (join_env, windows/SDL_process.c:247) -/

/-- join_env: a NULL environment argument yields a NULL block (the parent
environment is inherited, windows/SDL_process.c:252); otherwise the block
holds each entry followed by a NUL byte, and one further NUL byte is stored
at the end (windows/SDL_process.c:273).  Allocation is assumed to succeed. -/
def join_env (env : Option (List (List Nat))) : Option (List Nat) :=
  match env with
  | none => none
  | some vars => some (catLists (vars.map (fun v => v ++ [0])) ++ [0])

/-- A block is double-NUL-terminated when it ends in two NUL bytes. -/
def doubleNulTerminated (b : List Nat) : Bool :=
  decide (2 ≤ b.length) && decide (b.drop (b.length - 2) = [0, 0])

/-! ### Common stream-adapter data -/

/-- The three logical stream names registered in the property bag
(SDL_PROP_PROCESS_STDIN_STREAM and friends). -/
inductive StreamKey where
  | stdinS
  | stdoutS
  | stderrS
deriving DecidableEq, BEq, Repr

/-- Error cause of a failed stream-adapter close. -/
inductive CloseErr where
  | notCreatedWithFlag
  | alreadyClosed
deriving DecidableEq, Repr

/-! ### POSIX process structure (unix/SDL_process.c:35) -/

/-- struct SDL_Process of the unix backend: pid, the three pipe pairs
(read end, write end) and the property bag.  propsId stands for the
SDL_PropertiesID value; props lists the stream entries the bag holds. -/
structure UnixProc where
  pid : Int
  stdin_pipe : Int × Int
  stdout_pipe : Int × Int
  stderr_pipe : Int × Int
  flags : Nat
  propsId : Nat
  props : List StreamKey
deriving DecidableEq, Repr

/-! ### POSIX stream adapter operations (unix/SDL_process.c:44-201) -/

/-- One OS-level I/O action performed by a unix stream adapter. -/
inductive UnixIOAct where
  | readFd (fd : Int) (size : Nat)
  | writeFd (fd : Int) (size : Nat)
deriving DecidableEq, Repr

/-- Outcome of a unix adapter read or write: bytes transferred, whether the
status out-parameter was set to SDL_IO_STATUS_ERROR, and the OS I/O
performed. -/
structure UnixRWOut where
  n : Nat
  statusError : Bool
  acts : List UnixIOAct
deriving DecidableEq, Repr

/-- process_read_unsupported (unix/SDL_process.c:56): error status, zero
bytes, no OS call.  This is the read entry of a stdin adapter. -/
def process_read_unsupported_unix : UnixRWOut := ⟨0, true, []⟩

/-- process_write_unsupported (unix/SDL_process.c:65): error status, zero
bytes, no OS call.  This is the write entry of stdout and stderr adapters. -/
def process_write_unsupported_unix : UnixRWOut := ⟨0, true, []⟩

/-- process_read_from_stdout (unix/SDL_process.c:74).  osRet is the value
returned by read(2); the flag check comes first and performs no I/O. -/
def process_read_from_stdout_unix (p : UnixProc) (size : Nat) (osRet : Int) : UnixRWOut :=
  if !hasFlag p.flags SDL_PROCESS_STDOUT then ⟨0, true, []⟩
  else if osRet < 0 then ⟨0, true, [.readFd p.stdout_pipe.1 size]⟩
  else ⟨osRet.toNat, false, [.readFd p.stdout_pipe.1 size]⟩

/-- process_read_from_stderr (unix/SDL_process.c:99). -/
def process_read_from_stderr_unix (p : UnixProc) (size : Nat) (osRet : Int) : UnixRWOut :=
  if !hasFlag p.flags SDL_PROCESS_STDERR then ⟨0, true, []⟩
  else if osRet < 0 then ⟨0, true, [.readFd p.stderr_pipe.1 size]⟩
  else ⟨osRet.toNat, false, [.readFd p.stderr_pipe.1 size]⟩

/-- process_write_to_stdin (unix/SDL_process.c:124). -/
def process_write_to_stdin_unix (p : UnixProc) (size : Nat) (osRet : Int) : UnixRWOut :=
  if !hasFlag p.flags SDL_PROCESS_STDIN then ⟨0, true, []⟩
  else if osRet < 0 then ⟨0, true, [.writeFd p.stdin_pipe.2 size]⟩
  else ⟨osRet.toNat, false, [.writeFd p.stdin_pipe.2 size]⟩

/-- Outcome of a unix adapter close: the SDL_bool result, the error cause
on failure, the updated process structure, and the close(2) calls made. -/
structure UnixCloseOut where
  ok : Bool
  err : Option CloseErr
  proc : UnixProc
  closedFds : List Int
deriving DecidableEq, Repr

/-- process_stdin_close (unix/SDL_process.c:149): flag check, then the
already-closed check on the -1 sentinel; on success the write end is
closed, set to -1, and the bag entry is cleared. -/
def process_stdin_close_unix (p : UnixProc) : UnixCloseOut :=
  if !hasFlag p.flags SDL_PROCESS_STDIN then ⟨false, some .notCreatedWithFlag, p, []⟩
  else if p.stdin_pipe.2 < 0 then ⟨false, some .alreadyClosed, p, []⟩
  else
    ⟨true, none,
     { p with stdin_pipe := (p.stdin_pipe.1, -1), props := p.props.erase .stdinS },
     [p.stdin_pipe.2]⟩

/-- process_stdout_close (unix/SDL_process.c:167): same shape on the read
end of the stdout pipe. -/
def process_stdout_close_unix (p : UnixProc) : UnixCloseOut :=
  if !hasFlag p.flags SDL_PROCESS_STDOUT then ⟨false, some .notCreatedWithFlag, p, []⟩
  else if p.stdout_pipe.1 < 0 then ⟨false, some .alreadyClosed, p, []⟩
  else
    ⟨true, none,
     { p with stdout_pipe := (-1, p.stdout_pipe.2), props := p.props.erase .stdoutS },
     [p.stdout_pipe.1]⟩

/-- process_stderr_close (unix/SDL_process.c:185). -/
def process_stderr_close_unix (p : UnixProc) : UnixCloseOut :=
  if !hasFlag p.flags SDL_PROCESS_STDERR then ⟨false, some .notCreatedWithFlag, p, []⟩
  else if p.stderr_pipe.1 < 0 then ⟨false, some .alreadyClosed, p, []⟩
  else
    ⟨true, none,
     { p with stderr_pipe := (-1, p.stderr_pipe.2), props := p.props.erase .stderrS },
     [p.stderr_pipe.1]⟩

/-! ### POSIX wait (unix/SDL_process.c:447) -/

/-- Modelled from POSIX: the wstatus decoding used by the code.
WIFEXITED, WEXITSTATUS, WIFSIGNALED, WTERMSIG with the conventional
encoding (low 7 bits the signal, next 8 bits the exit code). -/
def WIFEXITED (w : Nat) : Bool := w &&& 0x7f == 0

def WEXITSTATUS (w : Nat) : Nat := (w >>> 8) &&& 0xff

def WIFSIGNALED (w : Nat) : Bool := (w &&& 0x7f != 0) && (w &&& 0x7f != 0x7f)

def WTERMSIG (w : Nat) : Nat := w &&& 0x7f

/-- OS-side state of the child process as seen through waitpid.  A running
child carries the wstatus it will eventually report; a zombie has exited
but has not been reaped; after reaping the OS has discarded the entry. -/
inductive ChildState where
  | running (eventual : Nat)
  | zombie (wstatus : Nat)
  | reaped
deriving DecidableEq, Repr

/-- Modelled from POSIX: waitpid(pid, and wstatus, block ? 0 : WNOHANG).
Returns (ret, wstatus, new state): ret is positive (here 1) when a child
was reaped, 0 for WNOHANG with the child still running, and -1 with
errno = ECHILD once the child has already been reaped. -/
def waitpid (c : ChildState) (block : Bool) : Int × Nat × ChildState :=
  match c, block with
  | .running w, true => (1, w, .reaped)
  | .running w, false => (0, 0, .running w)
  | .zombie w, _ => (1, w, .reaped)
  | .reaped, _ => (-1, 0, .reaped)

/-- Result of SDL_WaitProcess: the int return (1 exited, 0 still running,
-1 error), the value stored through the returncode out-parameter (none if
nothing was stored), and the OS child state afterwards. -/
structure WaitResult where
  ret : Int
  returncode : Option Int
  child : ChildState
deriving DecidableEq, Repr

/-- SDL_WaitProcess, unix backend, non-NULL process (unix/SDL_process.c:447):
waitpid, then the WIFEXITED / WIFSIGNALED decoding. -/
def SDL_WaitProcess_unix (c : ChildState) (block : Bool) : WaitResult :=
  let r := waitpid c block
  if r.1 < 0 then ⟨-1, none, r.2.2⟩
  else if r.1 == 0 then ⟨0, none, r.2.2⟩
  else if WIFEXITED r.2.1 then ⟨1, some (Int.ofNat (WEXITSTATUS r.2.1)), r.2.2⟩
  else if WIFSIGNALED r.2.1 then ⟨1, some (Int.ofNat (WTERMSIG r.2.1)), r.2.2⟩
  else ⟨1, none, r.2.2⟩

/-- SDL_WaitProcess including the NULL-process entry check
(unix/SDL_process.c:449): ret, stored returncode, whether an error message
was set, the child state afterwards, and how many waitpid calls were made. -/
structure UnixWaitApiOut where
  ret : Int
  rc : Option Int
  errorSet : Bool
  child : Option ChildState
  waitpidCalls : Nat
deriving DecidableEq, Repr

def SDL_WaitProcess_unix_api (p : Option ChildState) (block : Bool) : UnixWaitApiOut :=
  match p with
  | none => ⟨-1, none, true, none, 0⟩
  | some c =>
    let r := SDL_WaitProcess_unix c block
    ⟨r.ret, r.returncode, r.ret == -1, some r.child, 1⟩

/-! ### POSIX kill, properties, destroy (unix/SDL_process.c:419-505) -/

/-- Outcome of SDL_KillProcess: the SDL_bool return as an Int (the windows
backend returns -1 on a NULL process), whether an error message was set,
and the kill(2) calls made as (pid, signal). -/
structure KillOut where
  ret : Int
  errorSet : Bool
  sigSent : List (Int × Nat)
deriving DecidableEq, Repr

/-- SDL_KillProcess, unix (unix/SDL_process.c:428).  osRet is the kill(2)
return value. -/
def SDL_KillProcess_unix (p : Option UnixProc) (force : Bool) (osRet : Int) : KillOut :=
  match p with
  | none => ⟨0, true, []⟩
  | some pr =>
    let sig := if force then 9 else 15
    ⟨if osRet == 0 then 1 else 0, osRet < 0, [(pr.pid, sig)]⟩

/-- SDL_GetProcessProperties, unix (unix/SDL_process.c:419): (-1, error
set) on NULL, else the props id. -/
def SDL_GetProcessProperties_unix (p : Option UnixProc) : Int × Bool :=
  match p with
  | none => (-1, true)
  | some pr => (Int.ofNat pr.propsId, false)

/-- Outcome of SDL_DestroyProcess: either a NULL-pointer dereference (the
function reads process->flags with no check, unix/SDL_process.c:485) or
normal teardown with the list of close(2) calls made via the stream
adapters. -/
inductive UnixDestroyOut where
  | nullDeref
  | done (closedFds : List Int)
deriving DecidableEq, Repr

/-- SDL_DestroyProcess, unix (unix/SDL_process.c:483): closes whichever
stream entries the bag still holds, in the source order stdin, stderr,
stdout, then destroys the bag and frees the structure. -/
def SDL_DestroyProcess_unix (p : Option UnixProc) : UnixDestroyOut :=
  match p with
  | none => .nullDeref
  | some pr =>
    let s1 := if hasFlag pr.flags SDL_PROCESS_STDIN && pr.props.contains .stdinS then
        let r := process_stdin_close_unix pr
        (r.proc, r.closedFds)
      else (pr, [])
    let s2 := if hasFlag s1.1.flags SDL_PROCESS_STDERR && s1.1.props.contains .stderrS then
        let r := process_stderr_close_unix s1.1
        (r.proc, r.closedFds)
      else (s1.1, [])
    let s3 := if hasFlag s2.1.flags SDL_PROCESS_STDOUT && s2.1.props.contains .stdoutS then
        let r := process_stdout_close_unix s2.1
        (r.proc, r.closedFds)
      else (s2.1, [])
    .done (s1.2 ++ s2.2 ++ s3.2)

/-! ### POSIX process creation (unix/SDL_process.c:250) -/

/-- Failure-injection knobs for the unix SDL_CreateProcess path: each pipe
call, the fork call, and the exec call in the child can be made to fail. -/
structure UnixFail where
  stdinPipe : Bool
  stdoutPipe : Bool
  stderrPipe : Bool
  forkFail : Bool
  execFail : Bool
deriving DecidableEq, Repr

def noUnixFail : UnixFail := ⟨false, false, false, false, false⟩

/-- Uninitialised contents of the malloc-ed SDL_Process structure
(unix/SDL_process.c:260 uses SDL_malloc, which does not zero): one
arbitrary value per pipe-end field. -/
structure UnixJunk where
  siR : Int
  siW : Int
  soR : Int
  soW : Int
  seR : Int
  seW : Int
deriving DecidableEq, Repr

/-- OS calls made by the unix SDL_CreateProcess path (parent or child). -/
inductive UnixCall where
  | pipeMade (r w : Int)
  | closeFd (fd : Int)
  | forkOk
  | forkFailed
  | childCloseFd (fd : Int)
  | childDup2 (src : Int) (dst : Nat)
  | childExec (argv0 : Option (List Nat))
  | childExitNonzero
  | adapterOpened (key : StreamKey)
deriving DecidableEq, Repr

/-- Result of the unix SDL_CreateProcess model: the returned handle (none
when the C function returns NULL), the OS calls made in the parent, the OS
calls made in the forked child, and which pipes were actually created. -/
structure UnixCreateOut where
  proc : Option UnixProc
  trace : List UnixCall
  childTrace : List UnixCall
  stdinPipeF : Option (Int × Int)
  stdoutPipeF : Option (Int × Int)
  stderrPipeF : Option (Int × Int)
deriving DecidableEq, Repr

/-- SDL_CreateProcess, unix backend (unix/SDL_process.c:250).  Descriptors
are allocated in order from 3.  Allocation of the structure, the property
bag and the string copies is assumed to succeed; pipe, fork and exec
failures are driven by fail.  The fork-failure cleanup closes the
stderr_pipe fields whenever the STDERR flag is set, even when
STDERR_TO_STDOUT suppressed creation of that pipe, exactly as the source
does (unix/SDL_process.c:323). -/
def SDL_CreateProcess_unix (args : Option (List (List Nat)))
    (_env : Option (List (List Nat))) (flags : Nat) (fail : UnixFail)
    (junk : UnixJunk) : UnixCreateOut :=
  match args with
  | none => ⟨none, [], [], none, none, none⟩
  | some argv =>
    let p0 : UnixProc :=
      { pid := 0, stdin_pipe := (junk.siR, junk.siW), stdout_pipe := (junk.soR, junk.soW),
        stderr_pipe := (junk.seR, junk.seW), flags := flags, propsId := 7, props := [] }
    let wantSI := hasFlag flags SDL_PROCESS_STDIN
    let wantSO := hasFlag flags SDL_PROCESS_STDOUT
    let wantSE := hasFlag flags SDL_PROCESS_STDERR
    let toOut := flags &&& SDL_PROCESS_STDERR_TO_STDOUT == SDL_PROCESS_STDERR_TO_STDOUT
    if wantSI && fail.stdinPipe then
      ⟨none, [], [], none, none, none⟩
    else
      let p1 := if wantSI then { p0 with stdin_pipe := ((3 : Int), (4 : Int)) } else p0
      let t1 : List UnixCall := if wantSI then [.pipeMade 3 4] else []
      let siF : Option (Int × Int) := if wantSI then some (3, 4) else none
      let closeSI : List UnixCall :=
        if wantSI then [.closeFd p1.stdin_pipe.1, .closeFd p1.stdin_pipe.2] else []
      if wantSO && fail.stdoutPipe then
        ⟨none, t1 ++ closeSI, [], siF, none, none⟩
      else
        let so : Int × Int := if wantSI then (5, 6) else (3, 4)
        let p2 := if wantSO then { p1 with stdout_pipe := so } else p1
        let t2 := t1 ++ (if wantSO then [UnixCall.pipeMade so.1 so.2] else [])
        let soF : Option (Int × Int) := if wantSO then some so else none
        let closeSO : List UnixCall :=
          if wantSO then [.closeFd p2.stdout_pipe.1, .closeFd p2.stdout_pipe.2] else []
        let mkSE := wantSE && !toOut
        if mkSE && fail.stderrPipe then
          ⟨none, t2 ++ closeSI ++ closeSO, [], siF, soF, none⟩
        else
          let se : Int × Int :=
            if wantSI then (if wantSO then (7, 8) else (5, 6))
            else (if wantSO then (5, 6) else (3, 4))
          let p3 := if mkSE then { p2 with stderr_pipe := se } else p2
          let t3 := t2 ++ (if mkSE then [UnixCall.pipeMade se.1 se.2] else [])
          let seF : Option (Int × Int) := if mkSE then some se else none
          let closeSE : List UnixCall :=
            if wantSE then [.closeFd p3.stderr_pipe.1, .closeFd p3.stderr_pipe.2] else []
          if fail.forkFail then
            ⟨none, t3 ++ [.forkFailed] ++ closeSI ++ closeSO ++ closeSE, [], siF, soF, seF⟩
          else
            let ct : List UnixCall :=
              (if wantSI then [.childCloseFd p3.stdin_pipe.2, .childDup2 p3.stdin_pipe.1 0]
               else []) ++
              (if wantSO then [.childCloseFd p3.stdout_pipe.1, .childDup2 p3.stdout_pipe.2 1]
               else []) ++
              (if wantSE then
                (if toOut then [UnixCall.childDup2 p3.stdout_pipe.2 2]
                 else [.childCloseFd p3.stderr_pipe.1, .childDup2 p3.stderr_pipe.2 2])
               else []) ++
              [.childExec argv.head?] ++
              (if argv.head?.isNone || fail.execFail then [UnixCall.childExitNonzero] else [])
            let s4 := if wantSI then
                ({ p3 with props := p3.props ++ [StreamKey.stdinS] },
                 [UnixCall.adapterOpened .stdinS, .closeFd p3.stdin_pipe.1])
              else (p3, [])
            let s5 := if wantSO then
                ({ s4.1 with props := s4.1.props ++ [StreamKey.stdoutS] },
                 [UnixCall.adapterOpened .stdoutS, .closeFd s4.1.stdout_pipe.2])
              else (s4.1, [])
            let s6 := if wantSE && !toOut then
                ({ s5.1 with props := s5.1.props ++ [StreamKey.stderrS] },
                 [UnixCall.adapterOpened .stderrS, .closeFd s5.1.stderr_pipe.2])
              else (s5.1, [])
            ⟨some { s6.1 with pid := 1000 }, t3 ++ [.forkOk] ++ s4.2 ++ s5.2 ++ s6.2,
             ct, siF, soF, seF⟩

/-! ### Windows process structure (windows/SDL_process.c:29)

A HANDLE is modelled as a Nat: 0 is NULL, and handles created by the model
are positive.  The comparisons the source performs on HANDLE values (the
`< 0` already-closed tests and the non-NULL tests of the failure cleanup)
are embedded on these values: a pointer compared with `< 0` is never less
than zero, which is exactly the dead-check bug of the source. -/

structure WinProc where
  stdin_pipe : Nat × Nat
  stdout_pipe : Nat × Nat
  stderr_pipe : Nat × Nat
  hProcess : Nat
  hThread : Nat
  flags : Nat
  propsId : Nat
  props : List StreamKey
deriving DecidableEq, Repr

/-! ### Windows stream adapter operations (windows/SDL_process.c:38-186) -/

/-- One OS-level I/O action performed by a windows stream adapter. -/
inductive WinIOAct where
  | readH (h : Nat) (size : Nat)
  | writeH (h : Nat) (size : Nat)
deriving DecidableEq, Repr

structure WinRWOut where
  n : Nat
  statusError : Bool
  acts : List WinIOAct
deriving DecidableEq, Repr

/-- process_read_unsupported (windows/SDL_process.c:50). -/
def process_read_unsupported_windows : WinRWOut := ⟨0, true, []⟩

/-- process_write_unsupported (windows/SDL_process.c:59). -/
def process_write_unsupported_windows : WinRWOut := ⟨0, true, []⟩

/-- process_read_from_stdout (windows/SDL_process.c:68).  osOk is the
ReadFile success flag and osActual the count it stored; the failure branch
returns whatever ReadFile left in actual, as the source does. -/
def process_read_from_stdout_windows (p : WinProc) (size : Nat) (osOk : Bool)
    (osActual : Nat) : WinRWOut :=
  if !hasFlag p.flags SDL_PROCESS_STDOUT then ⟨0, true, []⟩
  else if !osOk then ⟨osActual, true, [.readH p.stdout_pipe.1 (min size 0xffffffff)]⟩
  else ⟨osActual, false, [.readH p.stdout_pipe.1 (min size 0xffffffff)]⟩

/-- process_read_from_stderr (windows/SDL_process.c:90). -/
def process_read_from_stderr_windows (p : WinProc) (size : Nat) (osOk : Bool)
    (osActual : Nat) : WinRWOut :=
  if !hasFlag p.flags SDL_PROCESS_STDERR then ⟨0, true, []⟩
  else if !osOk then ⟨osActual, true, [.readH p.stderr_pipe.1 (min size 0xffffffff)]⟩
  else ⟨osActual, false, [.readH p.stderr_pipe.1 (min size 0xffffffff)]⟩

/-- process_write_to_stdin (windows/SDL_process.c:112). -/
def process_write_to_stdin_windows (p : WinProc) (size : Nat) (osOk : Bool)
    (osActual : Nat) : WinRWOut :=
  if !hasFlag p.flags SDL_PROCESS_STDIN then ⟨0, true, []⟩
  else if !osOk then ⟨osActual, true, [.writeH p.stdin_pipe.2 (min size 0xffffffff)]⟩
  else ⟨osActual, false, [.writeH p.stdin_pipe.2 (min size 0xffffffff)]⟩

/-- Outcome of a windows adapter close: SDL_bool result, error cause,
updated structure, and the CloseHandle calls made (note 0 is CloseHandle
on NULL). -/
structure WinCloseOut where
  ok : Bool
  err : Option CloseErr
  proc : WinProc
  closedHs : List Nat
deriving DecidableEq, Repr

/-- process_stdin_close, windows (windows/SDL_process.c:134).  The
already-closed test of the source compares the HANDLE with < 0
(windows/SDL_process.c:142); a handle value is never negative, so that
branch is dead and the close proceeds even on an already-NULL handle. -/
def process_stdin_close_windows (p : WinProc) : WinCloseOut :=
  if !hasFlag p.flags SDL_PROCESS_STDIN then ⟨false, some .notCreatedWithFlag, p, []⟩
  else if (Int.ofNat p.stdin_pipe.2) < 0 then ⟨false, some .alreadyClosed, p, []⟩
  else
    ⟨true, none,
     { p with stdin_pipe := (p.stdin_pipe.1, 0), props := p.props.erase .stdinS },
     [p.stdin_pipe.2]⟩

/-- process_stdout_close, windows (windows/SDL_process.c:152). -/
def process_stdout_close_windows (p : WinProc) : WinCloseOut :=
  if !hasFlag p.flags SDL_PROCESS_STDOUT then ⟨false, some .notCreatedWithFlag, p, []⟩
  else if (Int.ofNat p.stdout_pipe.1) < 0 then ⟨false, some .alreadyClosed, p, []⟩
  else
    ⟨true, none,
     { p with stdout_pipe := (0, p.stdout_pipe.2), props := p.props.erase .stdoutS },
     [p.stdout_pipe.1]⟩

/-- process_stderr_close, windows (windows/SDL_process.c:170). -/
def process_stderr_close_windows (p : WinProc) : WinCloseOut :=
  if !hasFlag p.flags SDL_PROCESS_STDERR then ⟨false, some .notCreatedWithFlag, p, []⟩
  else if (Int.ofNat p.stderr_pipe.1) < 0 then ⟨false, some .alreadyClosed, p, []⟩
  else
    ⟨true, none,
     { p with stderr_pipe := (0, p.stderr_pipe.2), props := p.props.erase .stderrS },
     [p.stderr_pipe.1]⟩

/-! ### Windows wait (windows/SDL_process.c:472) -/

def WAIT_OBJECT_0 : Nat := 0
def WAIT_TIMEOUT : Nat := 258
def WAIT_FAILED : Nat := 0xffffffff
def STILL_ACTIVE : Nat := 259

/-- OS-side state of the windows child: running (with the code it will
eventually exit with) or exited.  There is no reaped state: the process
handle stays valid and signalled until closed. -/
inductive WinChild where
  | running (eventual : Nat)
  | exited (code : Nat)
deriving DecidableEq, Repr

/-- Modelled from Win32: WaitForSingleObject(hProcess, block ? INFINITE : 0).
A blocking wait on a running child returns once it has exited. -/
def waitForSingleObject (c : WinChild) (block : Bool) : Nat × WinChild :=
  match c, block with
  | .running w, true => (WAIT_OBJECT_0, .exited w)
  | .running w, false => (WAIT_TIMEOUT, .running w)
  | .exited w, _ => (WAIT_OBJECT_0, .exited w)

/-- Modelled from Win32: GetExitCodeProcess stores STILL_ACTIVE (259) for
a process that has not exited. -/
def getExitCodeProcess (c : WinChild) : Nat :=
  match c with
  | .running _ => STILL_ACTIVE
  | .exited w => w

structure WinWaitResult where
  ret : Int
  returncode : Option Int
  child : WinChild
deriving DecidableEq, Repr

/-- SDL_WaitProcess, windows backend, non-NULL process
(windows/SDL_process.c:472).  The source treats WAIT_OBJECT_0 and
WAIT_TIMEOUT alike (windows/SDL_process.c:483): both run the
GetExitCodeProcess branch and return 1. -/
def SDL_WaitProcess_windows (c : WinChild) (block : Bool) : WinWaitResult :=
  let r := waitForSingleObject c block
  if r.1 == WAIT_OBJECT_0 || r.1 == WAIT_TIMEOUT then
    ⟨1, some (Int.ofNat (getExitCodeProcess r.2)), r.2⟩
  else if r.1 == WAIT_FAILED then ⟨-1, none, r.2⟩
  else ⟨0, none, r.2⟩

structure WinWaitApiOut where
  ret : Int
  rc : Option Int
  errorSet : Bool
  child : Option WinChild
  waitCalls : Nat
deriving DecidableEq, Repr

/-- SDL_WaitProcess including the NULL-process entry check
(windows/SDL_process.c:476). -/
def SDL_WaitProcess_windows_api (p : Option WinChild) (block : Bool) : WinWaitApiOut :=
  match p with
  | none => ⟨-1, none, true, none, 0⟩
  | some c =>
    let r := SDL_WaitProcess_windows c block
    ⟨r.ret, r.returncode, r.ret == -1, some r.child, 1⟩

/-! ### Windows kill, properties, destroy (windows/SDL_process.c:447-525) -/

/-- SDL_KillProcess, windows (windows/SDL_process.c:456): returns -1 on a
NULL process; otherwise TerminateProcess(hProcess, 1) regardless of force.
sigSent records (handle as Int, exit code 1). -/
def SDL_KillProcess_windows (p : Option WinProc) (_force : Bool) (termOk : Bool) : KillOut :=
  match p with
  | none => ⟨-1, true, []⟩
  | some pr =>
    if termOk then ⟨1, false, [(Int.ofNat pr.hProcess, 1)]⟩
    else ⟨0, true, [(Int.ofNat pr.hProcess, 1)]⟩

/-- SDL_GetProcessProperties, windows (windows/SDL_process.c:447). -/
def SDL_GetProcessProperties_windows (p : Option WinProc) : Int × Bool :=
  match p with
  | none => (-1, true)
  | some pr => (Int.ofNat pr.propsId, false)

/-- Outcome of the windows SDL_DestroyProcess: NULL dereference (the
function reads process->flags with no check, windows/SDL_process.c:503) or
the CloseHandle calls made, with the thread and process handles last. -/
inductive WinDestroyOut where
  | nullDeref
  | done (closedHs : List Nat)
deriving DecidableEq, Repr

/-- SDL_DestroyProcess, windows (windows/SDL_process.c:501): stream order
stdin, stderr, stdout, then CloseHandle(hThread), CloseHandle(hProcess). -/
def SDL_DestroyProcess_windows (p : Option WinProc) : WinDestroyOut :=
  match p with
  | none => .nullDeref
  | some pr =>
    let s1 := if hasFlag pr.flags SDL_PROCESS_STDIN && pr.props.contains .stdinS then
        let r := process_stdin_close_windows pr
        (r.proc, r.closedHs)
      else (pr, [])
    let s2 := if hasFlag s1.1.flags SDL_PROCESS_STDERR && s1.1.props.contains .stderrS then
        let r := process_stderr_close_windows s1.1
        (r.proc, r.closedHs)
      else (s1.1, [])
    let s3 := if hasFlag s2.1.flags SDL_PROCESS_STDOUT && s2.1.props.contains .stdoutS then
        let r := process_stdout_close_windows s2.1
        (r.proc, r.closedHs)
      else (s2.1, [])
    .done (s1.2 ++ s2.2 ++ s3.2 ++ [s3.1.hThread, s3.1.hProcess])

/-! ### Windows process creation (windows/SDL_process.c:279) -/

/-- Failure-injection knobs for the windows SDL_CreateProcess path:
CreatePipe and SetHandleInformation per stream, and CreateProcessA. -/
structure WinFail where
  stdinPipe : Bool
  stdinInfo : Bool
  stdoutPipe : Bool
  stdoutInfo : Bool
  stderrPipe : Bool
  stderrInfo : Bool
  createProc : Bool
deriving DecidableEq, Repr

def noWinFail : WinFail := ⟨false, false, false, false, false, false, false⟩

/-- OS calls made by the windows SDL_CreateProcess path. -/
inductive WinCall where
  | pipeMade (r w : Nat)
  | inheritCleared (h : Nat)
  | closedH (h : Nat)
  | createProcCalled
  | createProcFailed
  | adapterOpened (key : StreamKey)
deriving DecidableEq, Repr

/-- What startup_info.hStdError was set to. -/
inductive WinStdTarget where
  | notSet
  | parentDefault
  | pipeEnd (h : Nat)
deriving DecidableEq, Repr

structure WinCreateOut where
  proc : Option WinProc
  trace : List WinCall
  stdinPipeH : Option (Nat × Nat)
  stdoutPipeH : Option (Nat × Nat)
  stderrPipeH : Option (Nat × Nat)
  hStdError : WinStdTarget
deriving DecidableEq, Repr

/-- The cleanup block at the failed label (windows/SDL_process.c:415-439),
embedded exactly as written: for each requested stream it tests and closes
pipe[READ_END] twice in a row, and never touches pipe[WRITE_END]. -/
def winFailCleanup (flags : Nat) (p : WinProc) : List WinCall :=
  (if hasFlag flags SDL_PROCESS_STDIN then
      (if p.stdin_pipe.1 != 0 then [WinCall.closedH p.stdin_pipe.1] else []) ++
      (if p.stdin_pipe.1 != 0 then [WinCall.closedH p.stdin_pipe.1] else [])
    else []) ++
  (if hasFlag flags SDL_PROCESS_STDOUT then
      (if p.stdout_pipe.1 != 0 then [WinCall.closedH p.stdout_pipe.1] else []) ++
      (if p.stdout_pipe.1 != 0 then [WinCall.closedH p.stdout_pipe.1] else [])
    else []) ++
  (if hasFlag flags SDL_PROCESS_STDERR then
      (if p.stderr_pipe.1 != 0 then [WinCall.closedH p.stderr_pipe.1] else []) ++
      (if p.stderr_pipe.1 != 0 then [WinCall.closedH p.stderr_pipe.1] else [])
    else []) ++ []

/-- SDL_CreateProcess, windows backend (windows/SDL_process.c:279).  The
structure is SDL_calloc-ed (all fields zero).  Handle values are allocated
in order from 4.  join_arguments and join_env allocations are assumed to
succeed (argument marshalling itself is modelled separately); pipe,
SetHandleInformation and CreateProcessA failures are driven by fail. -/
def SDL_CreateProcess_windows (args : Option (List (List Nat)))
    (_env : Option (List (List Nat))) (flags : Nat) (fail : WinFail) : WinCreateOut :=
  match args with
  | none => ⟨none, [], none, none, none, .notSet⟩
  | some _argv =>
    let p0 : WinProc :=
      { stdin_pipe := (0, 0), stdout_pipe := (0, 0), stderr_pipe := (0, 0),
        hProcess := 0, hThread := 0, flags := flags, propsId := 8, props := [] }
    let wantSI := hasFlag flags SDL_PROCESS_STDIN
    let wantSO := hasFlag flags SDL_PROCESS_STDOUT
    let wantSE := hasFlag flags SDL_PROCESS_STDERR
    let toOut := flags &&& SDL_PROCESS_STDERR_TO_STDOUT == SDL_PROCESS_STDERR_TO_STDOUT
    let redir := flags &&& (SDL_PROCESS_STDIN ||| SDL_PROCESS_STDOUT ||| SDL_PROCESS_STDERR) != 0
    -- stdin section
    if redir && wantSI && fail.stdinPipe then
      ⟨none, winFailCleanup flags p0, none, none, none, .notSet⟩
    else
      let p1 := if redir && wantSI then { p0 with stdin_pipe := ((4 : Nat), (5 : Nat)) } else p0
      let t1 : List WinCall := if redir && wantSI then [.pipeMade 4 5] else []
      let siH : Option (Nat × Nat) := if redir && wantSI then some (4, 5) else none
      if redir && wantSI && fail.stdinInfo then
        ⟨none, t1 ++ winFailCleanup flags p1, siH, none, none, .notSet⟩
      else
        let t1b := t1 ++ (if redir && wantSI then [WinCall.inheritCleared p1.stdin_pipe.2] else [])
        -- stdout section
        if redir && wantSO && fail.stdoutPipe then
          ⟨none, t1b ++ winFailCleanup flags p1, siH, none, none, .notSet⟩
        else
          let so : Nat × Nat := if wantSI then (6, 7) else (4, 5)
          let p2 := if redir && wantSO then { p1 with stdout_pipe := so } else p1
          let t2 := t1b ++ (if redir && wantSO then [WinCall.pipeMade so.1 so.2] else [])
          let soH : Option (Nat × Nat) := if redir && wantSO then some so else none
          if redir && wantSO && fail.stdoutInfo then
            ⟨none, t2 ++ winFailCleanup flags p2, siH, soH, none, .notSet⟩
          else
            let t2b := t2 ++
              (if redir && wantSO then [WinCall.inheritCleared p2.stdout_pipe.1] else [])
            -- stderr section
            let mkSE := redir && wantSE && !toOut
            if mkSE && fail.stderrPipe then
              ⟨none, t2b ++ winFailCleanup flags p2, siH, soH, none, .notSet⟩
            else
              let se : Nat × Nat :=
                if wantSI then (if wantSO then (8, 9) else (6, 7))
                else (if wantSO then (6, 7) else (4, 5))
              let p3 := if mkSE then { p2 with stderr_pipe := se } else p2
              let t3 := t2b ++ (if mkSE then [WinCall.pipeMade se.1 se.2] else [])
              let seH : Option (Nat × Nat) := if mkSE then some se else none
              if mkSE && fail.stderrInfo then
                ⟨none, t3 ++ winFailCleanup flags p3, siH, soH, seH, .notSet⟩
              else
                let t3b := t3 ++ (if mkSE then [WinCall.inheritCleared p3.stderr_pipe.1] else [])
                let he : WinStdTarget :=
                  if redir then
                    (if wantSE then
                      (if toOut then .pipeEnd p3.stdout_pipe.2 else .pipeEnd p3.stderr_pipe.2)
                     else .parentDefault)
                  else .notSet
                -- CreateProcessA
                if fail.createProc then
                  ⟨none, t3b ++ [.createProcFailed] ++ winFailCleanup flags p3, siH, soH, seH, he⟩
                else
                  let s4 := if wantSI then
                      ({ p3 with
                          stdin_pipe := (0, p3.stdin_pipe.2),
                          props := p3.props ++ [StreamKey.stdinS] },
                       [WinCall.adapterOpened .stdinS, .closedH p3.stdin_pipe.1])
                    else (p3, [])
                  let s5 := if wantSO then
                      ({ s4.1 with
                          stdout_pipe := (s4.1.stdout_pipe.1, 0),
                          props := s4.1.props ++ [StreamKey.stdoutS] },
                       [WinCall.adapterOpened .stdoutS, .closedH s4.1.stdout_pipe.2])
                    else (s4.1, [])
                  let s6 := if wantSE && !toOut then
                      ({ s5.1 with
                          stderr_pipe := (s5.1.stderr_pipe.1, 0),
                          props := s5.1.props ++ [StreamKey.stderrS] },
                       [WinCall.adapterOpened .stderrS, .closedH s5.1.stderr_pipe.2])
                    else (s5.1, [])
                  ⟨some { s6.1 with hProcess := 50, hThread := 51 },
                   t3b ++ [.createProcCalled] ++ s4.2 ++ s5.2 ++ s6.2, siH, soH, seH, he⟩

/-! ### Concrete instances used by the evaluation theorems and witnesses -/

/-- Arbitrary junk contents for the malloc-ed unix structure. -/
def junkA : UnixJunk := ⟨-21, -22, -23, -24, -25, -26⟩

/-- Failure plan: CreateProcessA fails, everything before succeeds. -/
def failCreateProcA : WinFail := ⟨false, false, false, false, false, false, true⟩

/-- Failure plan: fork fails, everything before succeeds. -/
def failForkA : UnixFail := ⟨false, false, false, true, false⟩

/-- A unix handle as produced by SDL_CreateProcess with SDL_PROCESS_STDIN:
stdin pipe (3, 4), read end already closed by the parent, stdin stream in
the bag. -/
def uStdinProc : UnixProc := ⟨1000, (3, 4), (-23, -24), (-25, -26), 1, 7, [.stdinS]⟩

/-- uStdinProc after its stdin adapter has been closed once. -/
def uStdinProcClosed : UnixProc := ⟨1000, (3, -1), (-23, -24), (-25, -26), 1, 7, []⟩

/-- A windows handle as produced by SDL_CreateProcess with
SDL_PROCESS_STDIN: stdin pipe write end 5, read end closed (NULL), stdin
stream in the bag. -/
def wStdinProc : WinProc := ⟨(0, 5), (0, 0), (0, 0), 50, 51, 1, 8, [.stdinS]⟩

/-- wStdinProc after its stdin adapter has been closed once. -/
def wStdinProcClosed : WinProc := ⟨(0, 0), (0, 0), (0, 0), 50, 51, 1, 8, []⟩

/-- A unix handle created with no redirection flags. -/
def uNoFlags : UnixProc := ⟨1000, (-21, -22), (-23, -24), (-25, -26), 0, 7, []⟩

/-- A windows handle created with no redirection flags. -/
def wNoFlags : WinProc := ⟨(0, 0), (0, 0), (0, 0), 50, 51, 0, 8, []⟩

/-! ## Helper lemmas -/

/-- Peeling one argument off the join_arguments buffer. -/
theorem join_arguments_buffer_cons (a : List Nat) (l : List (List Nat)) :
    join_arguments_buffer (a :: l) = (escapeArg a ++ [32]) ++ join_arguments_buffer l := rfl

/-- The buffer for a non-empty argument list is the space-joined escaped
arguments followed by one final space. -/
theorem join_arguments_buffer_eq (a : List Nat) (rest : List (List Nat)) :
    join_arguments_buffer (a :: rest) =
      (escapeArg a ++ catLists (rest.map (fun b => 32 :: escapeArg b))) ++ [32] := by
  induction rest generalizing a with
  | nil => simp [join_arguments_buffer, catLists]
  | cons b bs ih =>
    rw [join_arguments_buffer_cons, ih b]
    simp [catLists]

/-- A non-empty environment block always has the form prefix ++ [0, 0]. -/
theorem envBlock_shape (vs : List (List Nat)) (v : List Nat) :
    ∃ p, catLists ((v :: vs).map (fun e => e ++ [0])) ++ [0] = p ++ [0, 0] := by
  induction vs generalizing v with
  | nil => exact ⟨v, by simp [catLists]⟩
  | cons w ws ih =>
    obtain ⟨p, hp⟩ := ih w
    refine ⟨(v ++ [0]) ++ p, ?_⟩
    have hstep : catLists ((v :: w :: ws).map (fun e => e ++ [0])) =
        (v ++ [0]) ++ catLists ((w :: ws).map (fun e => e ++ [0])) := rfl
    rw [hstep, List.append_assoc, hp, ← List.append_assoc]

/-- Anything of the form prefix ++ [0, 0] is double-NUL-terminated. -/
theorem dnul_concat (p : List Nat) : doubleNulTerminated (p ++ [0, 0]) = true := by
  have h1 : (p ++ [0, 0]).length = p.length + 2 := by simp
  have h2 : (p ++ [0, 0]).drop ((p ++ [0, 0]).length - 2) = [0, 0] := by
    rw [h1, Nat.add_sub_cancel]
    exact List.drop_left p [0, 0]
  simp [doubleNulTerminated, h1, h2]

/-- Bit arithmetic: if a is a sub-mask of b and x &&& b = 0 then
x &&& a = 0. -/
theorem land_subset_zero (x a b : Nat) (hab : a &&& b = a) (h : x &&& b = 0) :
    x &&& a = 0 := by
  apply Nat.eq_of_testBit_eq
  intro i
  have hb := congrArg (fun t => t.testBit i) h
  have ha := congrArg (fun t => t.testBit i) hab
  simp only [Nat.testBit_and, Nat.zero_testBit] at hb ha ⊢
  cases hA : a.testBit i <;> cases hX : x.testBit i <;> cases hB : b.testBit i <;>
    simp_all

/-- A flag set containing STDERR enters the redirected-handles section of
the windows SDL_CreateProcess. -/
theorem stderr_redir_nonzero (flags : Nat)
    (h : hasFlag flags SDL_PROCESS_STDERR = true) :
    (flags &&& (SDL_PROCESS_STDIN ||| SDL_PROCESS_STDOUT ||| SDL_PROCESS_STDERR) != 0) = true := by
  simp only [hasFlag, SDL_PROCESS_STDERR, SDL_PROCESS_STDIN, SDL_PROCESS_STDOUT] at h ⊢
  have h7 : ((1 : Nat) ||| 2 ||| 4) = 7 := rfl
  rw [h7]
  simp only [bne_iff_ne, ne_eq] at h ⊢
  intro h0
  exact h (land_subset_zero flags 4 7 rfl h0)

/-! ## Claims -/

/-- Claim C1: a non-blocking SDL_WaitProcess on a still-running child
returns 0 and leaves the OS state unchanged.  This holds for the unix
backend; the windows backend lands WAIT_TIMEOUT in the exited branch
(windows/SDL_process.c:483), returning 1 with the STILL_ACTIVE pseudo exit
code 259, contradicting the doc comment of the function (1 if the process
exited, 0 if not). -/
theorem waitProcess_nonblocking_running_eval (w : Nat) :
    SDL_WaitProcess_unix (ChildState.running w) false = ⟨0, none, ChildState.running w⟩ ∧
    SDL_WaitProcess_windows (WinChild.running w) false = ⟨1, some 259, WinChild.running w⟩ :=
  ⟨rfl, rfl⟩

/-- Claim C2, counterexample: on unix a first blocking wait on an exited
child reports 1, and a second wait on the resulting OS state returns -1
(waitpid fails with ECHILD once the child is reaped), not 1. -/
theorem rewait_after_exit_cex :
    (SDL_WaitProcess_unix (ChildState.zombie 0) true).ret = 1 ∧
    (SDL_WaitProcess_unix (SDL_WaitProcess_unix (ChildState.zombie 0) true).child true).ret = -1 := by
  decide

/-- Claim C2, amended: after the child has exited, re-waiting on windows
returns 1 again with the same exit code, while on unix a wait after the
child has been reaped returns -1 (error) without hanging. -/
theorem rewait_after_exit_amended (w : Nat) (block : Bool) :
    SDL_WaitProcess_windows (WinChild.exited w) block =
      ⟨1, some (Int.ofNat w), WinChild.exited w⟩ ∧
    SDL_WaitProcess_unix ChildState.reaped block = ⟨-1, none, ChildState.reaped⟩ :=
  ⟨rfl, rfl⟩

/-- Claim C3: evaluation of the failure paths.  Windows, flags = STDIN,
CreateProcessA fails: the cleanup closes the created read end 4 twice and
never closes the created write end 5 (which leaks).  Unix,
flags = STDERR|STDERR_TO_STDOUT, fork fails: the cleanup closes the junk
contents of the never-created stderr pipe fields. -/
theorem createProcess_failure_cleanup_eval :
    (SDL_CreateProcess_windows (some [[112]]) none SDL_PROCESS_STDIN failCreateProcA).proc
        = none ∧
    (SDL_CreateProcess_windows (some [[112]]) none SDL_PROCESS_STDIN failCreateProcA).stdinPipeH
        = some (4, 5) ∧
    (SDL_CreateProcess_windows (some [[112]]) none SDL_PROCESS_STDIN failCreateProcA).trace
        = [.pipeMade 4 5, .inheritCleared 5, .createProcFailed, .closedH 4, .closedH 4] ∧
    WinCall.closedH 5 ∉
      (SDL_CreateProcess_windows (some [[112]]) none SDL_PROCESS_STDIN failCreateProcA).trace ∧
    (SDL_CreateProcess_unix (some [[112]]) none
        (SDL_PROCESS_STDERR ||| SDL_PROCESS_STDERR_TO_STDOUT) failForkA junkA).proc = none ∧
    (SDL_CreateProcess_unix (some [[112]]) none
        (SDL_PROCESS_STDERR ||| SDL_PROCESS_STDERR_TO_STDOUT) failForkA junkA).trace
        = [.forkFailed, .closeFd (-25), .closeFd (-26)] ∧
    (SDL_CreateProcess_unix (some [[112]]) none
        (SDL_PROCESS_STDERR ||| SDL_PROCESS_STDERR_TO_STDOUT) failForkA junkA).stderrPipeF
        = none := by
  decide

/-- Claim C4: evaluation of double close.  Unix: the first close releases
fd 4, clears the bag entry, and the second close fails with the
already-closed error performing no close.  Windows: the first close
releases handle 5 and clears the bag entry, but the second close passes the
dead HANDLE-less-than-zero test, calls CloseHandle on NULL and returns
success instead of the already-closed error. -/
theorem stream_double_close_eval :
    process_stdin_close_unix uStdinProc = ⟨true, none, uStdinProcClosed, [4]⟩ ∧
    process_stdin_close_unix uStdinProcClosed =
      ⟨false, some .alreadyClosed, uStdinProcClosed, []⟩ ∧
    process_stdin_close_windows wStdinProc = ⟨true, none, wStdinProcClosed, [5]⟩ ∧
    process_stdin_close_windows wStdinProcClosed = ⟨true, none, wStdinProcClosed, [0]⟩ := by
  decide

/-- Claim C5: evaluation at the empty argument list.  Unix performs no
validation: with flags = STDIN it creates a pipe, forks, registers the
stdin adapter and returns a non-NULL handle, while the child execs NULL
and exits non-zero.  Windows join_arguments computes len = 0 and the final
terminator store result[len - 1] wraps to index SIZE_MAX, outside the
zero-length buffer. -/
theorem empty_args_eval :
    (SDL_CreateProcess_unix (some []) none SDL_PROCESS_STDIN noUnixFail junkA).proc
        = some ⟨1000, (3, 4), (-23, -24), (-25, -26), 1, 7, [.stdinS]⟩ ∧
    (SDL_CreateProcess_unix (some []) none SDL_PROCESS_STDIN noUnixFail junkA).trace
        = [.pipeMade 3 4, .forkOk, .adapterOpened .stdinS, .closeFd 3] ∧
    (SDL_CreateProcess_unix (some []) none SDL_PROCESS_STDIN noUnixFail junkA).childTrace
        = [.childCloseFd 4, .childDup2 3 0, .childExec none, .childExitNonzero] ∧
    join_arguments_len [] = 0 ∧
    join_arguments_finalIndex [] = SIZE_T_MOD - 1 ∧
    ¬ join_arguments_finalIndex [] < join_arguments_len [] := by
  decide

/-- Claim C6: when STDERR and STDERR_TO_STDOUT are both set, no stderr
pipe is created, no stderr adapter is registered in the bag, and (when a
stdout pipe exists) the child standard error is wired to the stdout pipe
write end: dup2 onto fd 2 on unix, startup_info.hStdError on windows. -/
theorem stderr_to_stdout_exclusive (flags : Nat) (a0 : List Nat)
    (rest : List (List Nat)) (env : Option (List (List Nat))) (junk : UnixJunk)
    (h1 : hasFlag flags SDL_PROCESS_STDERR = true)
    (h2 : (flags &&& SDL_PROCESS_STDERR_TO_STDOUT == SDL_PROCESS_STDERR_TO_STDOUT) = true) :
    (SDL_CreateProcess_unix (some (a0 :: rest)) env flags noUnixFail junk).stderrPipeF = none ∧
    (∀ p, (SDL_CreateProcess_unix (some (a0 :: rest)) env flags noUnixFail junk).proc = some p →
      StreamKey.stderrS ∉ p.props) ∧
    (hasFlag flags SDL_PROCESS_STDOUT = true →
      ∃ pr, (SDL_CreateProcess_unix (some (a0 :: rest)) env flags noUnixFail junk).stdoutPipeF
          = some pr ∧
        UnixCall.childDup2 pr.2 2 ∈
          (SDL_CreateProcess_unix (some (a0 :: rest)) env flags noUnixFail junk).childTrace) ∧
    (SDL_CreateProcess_windows (some (a0 :: rest)) env flags noWinFail).stderrPipeH = none ∧
    (∀ p, (SDL_CreateProcess_windows (some (a0 :: rest)) env flags noWinFail).proc = some p →
      StreamKey.stderrS ∉ p.props) ∧
    (hasFlag flags SDL_PROCESS_STDOUT = true →
      ∃ pr, (SDL_CreateProcess_windows (some (a0 :: rest)) env flags noWinFail).stdoutPipeH
          = some pr ∧
        (SDL_CreateProcess_windows (some (a0 :: rest)) env flags noWinFail).hStdError =
          WinStdTarget.pipeEnd pr.2) := by
  have hr := stderr_redir_nonzero flags h1
  cases hSI : hasFlag flags SDL_PROCESS_STDIN <;>
    cases hSO : hasFlag flags SDL_PROCESS_STDOUT <;>
      simp [SDL_CreateProcess_unix, SDL_CreateProcess_windows, noUnixFail, noWinFail,
            h1, h2, hSI, hSO, hr, winFailCleanup]

/-- Claim C6 witness at flags = STDOUT|STDERR|STDERR_TO_STDOUT = 22. -/
theorem stderr_to_stdout_exclusive_witness :
    (SDL_CreateProcess_unix (some [[112]]) none 22 noUnixFail junkA).stderrPipeF = none ∧
    (∀ p, (SDL_CreateProcess_unix (some [[112]]) none 22 noUnixFail junkA).proc = some p →
      StreamKey.stderrS ∉ p.props) ∧
    (hasFlag 22 SDL_PROCESS_STDOUT = true →
      ∃ pr, (SDL_CreateProcess_unix (some [[112]]) none 22 noUnixFail junkA).stdoutPipeF
          = some pr ∧
        UnixCall.childDup2 pr.2 2 ∈
          (SDL_CreateProcess_unix (some [[112]]) none 22 noUnixFail junkA).childTrace) ∧
    (SDL_CreateProcess_windows (some [[112]]) none 22 noWinFail).stderrPipeH = none ∧
    (∀ p, (SDL_CreateProcess_windows (some [[112]]) none 22 noWinFail).proc = some p →
      StreamKey.stderrS ∉ p.props) ∧
    (hasFlag 22 SDL_PROCESS_STDOUT = true →
      ∃ pr, (SDL_CreateProcess_windows (some [[112]]) none 22 noWinFail).stdoutPipeH
          = some pr ∧
        (SDL_CreateProcess_windows (some [[112]]) none 22 noWinFail).hStdError =
          WinStdTarget.pipeEnd pr.2) :=
  stderr_to_stdout_exclusive 22 [112] [] none junkA (by decide) (by decide)

/-- Claim C7, counterexample: the marshaller does not quote; for the single
argument "a b" it produces the bytes of a backslash-space escape, and the
documented argv-splitting rules break that command line into two arguments,
so the output does not follow those rules. -/
theorem join_arguments_msvc_cex :
    join_arguments [[97, 32, 98]] = [97, 92, 32, 98] ∧
    msvcSplit (join_arguments [[97, 32, 98]]) = [[97, 92], [98]] ∧
    msvcSplit (join_arguments [[97, 32, 98]]) ≠ [[97, 32, 98]] := by
  decide

/-- Claim C7, amended: for every non-empty argument list join_arguments
yields the escaped arguments (each space, tab, double quote or backslash
byte preceded by one backslash, no surrounding quotes) joined by exactly
one space, with nothing after the last argument. -/
theorem join_arguments_escape_join (a : List Nat) (rest : List (List Nat)) :
    join_arguments (a :: rest) =
      escapeArg a ++ catLists (rest.map (fun b => 32 :: escapeArg b)) := by
  rw [join_arguments, join_arguments_buffer_eq]
  exact List.dropLast_concat

/-- Claim C8, counterexample: for the empty (non-NULL) environment list the
block is a single NUL byte, which is not double-NUL-terminated. -/
theorem join_env_empty_cex :
    join_env (some []) = some [0] ∧ doubleNulTerminated [0] = false := by
  decide

/-- Claim C8, amended: a NULL environment argument yields a NULL block
(parent environment inherited); a non-empty list yields the entries in
order, each NUL-terminated, and the whole block is double-NUL-terminated. -/
theorem join_env_blocks (v : List Nat) (vs : List (List Nat)) :
    join_env none = none ∧
    join_env (some (v :: vs)) =
      some (catLists ((v :: vs).map (fun e => e ++ [0])) ++ [0]) ∧
    doubleNulTerminated (catLists ((v :: vs).map (fun e => e ++ [0])) ++ [0]) = true := by
  refine ⟨rfl, rfl, ?_⟩
  obtain ⟨p, hp⟩ := envBlock_shape vs v
  rw [hp]
  exact dnul_concat p

/-- Claim C9: the disallowed operation of every adapter fails with the
capability error, transfers zero bytes and performs no OS I/O: the write
entry of stdout and stderr adapters and the read entry of stdin adapters
are the unsupported stubs, and the flag-checking operations (read from
stdout or stderr, write to stdin, every close) error out before touching
the pipe when the corresponding redirection flag is missing. -/
theorem capability_denied_ops (pU qU rU : UnixProc) (pW qW rW : WinProc)
    (sz : Nat) (r : Int) (ok : Bool) (n : Nat)
    (h1 : hasFlag pU.flags SDL_PROCESS_STDOUT = false)
    (h2 : hasFlag qU.flags SDL_PROCESS_STDERR = false)
    (h3 : hasFlag rU.flags SDL_PROCESS_STDIN = false)
    (h4 : hasFlag pW.flags SDL_PROCESS_STDOUT = false)
    (h5 : hasFlag qW.flags SDL_PROCESS_STDERR = false)
    (h6 : hasFlag rW.flags SDL_PROCESS_STDIN = false) :
    process_write_unsupported_unix = ⟨0, true, []⟩ ∧
    process_read_unsupported_unix = ⟨0, true, []⟩ ∧
    process_write_unsupported_windows = ⟨0, true, []⟩ ∧
    process_read_unsupported_windows = ⟨0, true, []⟩ ∧
    process_read_from_stdout_unix pU sz r = ⟨0, true, []⟩ ∧
    process_read_from_stderr_unix qU sz r = ⟨0, true, []⟩ ∧
    process_write_to_stdin_unix rU sz r = ⟨0, true, []⟩ ∧
    process_stdout_close_unix pU = ⟨false, some .notCreatedWithFlag, pU, []⟩ ∧
    process_stderr_close_unix qU = ⟨false, some .notCreatedWithFlag, qU, []⟩ ∧
    process_stdin_close_unix rU = ⟨false, some .notCreatedWithFlag, rU, []⟩ ∧
    process_read_from_stdout_windows pW sz ok n = ⟨0, true, []⟩ ∧
    process_read_from_stderr_windows qW sz ok n = ⟨0, true, []⟩ ∧
    process_write_to_stdin_windows rW sz ok n = ⟨0, true, []⟩ ∧
    process_stdout_close_windows pW = ⟨false, some .notCreatedWithFlag, pW, []⟩ ∧
    process_stderr_close_windows qW = ⟨false, some .notCreatedWithFlag, qW, []⟩ ∧
    process_stdin_close_windows rW = ⟨false, some .notCreatedWithFlag, rW, []⟩ := by
  simp [process_write_unsupported_unix, process_read_unsupported_unix,
        process_write_unsupported_windows, process_read_unsupported_windows,
        process_read_from_stdout_unix, process_read_from_stderr_unix,
        process_write_to_stdin_unix, process_stdout_close_unix,
        process_stderr_close_unix, process_stdin_close_unix,
        process_read_from_stdout_windows, process_read_from_stderr_windows,
        process_write_to_stdin_windows, process_stdout_close_windows,
        process_stderr_close_windows, process_stdin_close_windows,
        h1, h2, h3, h4, h5, h6]

/-- Claim C9 witness on handles created with no redirection flags. -/
theorem capability_denied_ops_witness :
    process_write_unsupported_unix = ⟨0, true, []⟩ ∧
    process_read_unsupported_unix = ⟨0, true, []⟩ ∧
    process_write_unsupported_windows = ⟨0, true, []⟩ ∧
    process_read_unsupported_windows = ⟨0, true, []⟩ ∧
    process_read_from_stdout_unix uNoFlags 16 0 = ⟨0, true, []⟩ ∧
    process_read_from_stderr_unix uNoFlags 16 0 = ⟨0, true, []⟩ ∧
    process_write_to_stdin_unix uNoFlags 16 0 = ⟨0, true, []⟩ ∧
    process_stdout_close_unix uNoFlags = ⟨false, some .notCreatedWithFlag, uNoFlags, []⟩ ∧
    process_stderr_close_unix uNoFlags = ⟨false, some .notCreatedWithFlag, uNoFlags, []⟩ ∧
    process_stdin_close_unix uNoFlags = ⟨false, some .notCreatedWithFlag, uNoFlags, []⟩ ∧
    process_read_from_stdout_windows wNoFlags 16 true 0 = ⟨0, true, []⟩ ∧
    process_read_from_stderr_windows wNoFlags 16 true 0 = ⟨0, true, []⟩ ∧
    process_write_to_stdin_windows wNoFlags 16 true 0 = ⟨0, true, []⟩ ∧
    process_stdout_close_windows wNoFlags = ⟨false, some .notCreatedWithFlag, wNoFlags, []⟩ ∧
    process_stderr_close_windows wNoFlags = ⟨false, some .notCreatedWithFlag, wNoFlags, []⟩ ∧
    process_stdin_close_windows wNoFlags = ⟨false, some .notCreatedWithFlag, wNoFlags, []⟩ :=
  capability_denied_ops uNoFlags uNoFlags uNoFlags wNoFlags wNoFlags wNoFlags 16 0 true 0
    (by decide) (by decide) (by decide) (by decide) (by decide) (by decide)

/-- Claim C10: on a NULL process handle SDL_KillProcess, SDL_WaitProcess
and SDL_GetProcessProperties set an error message and return an error value
(SDL_FALSE, -1 on windows kill; -1 elsewhere) making no OS call, while
SDL_DestroyProcess on either backend dereferences the NULL pointer
unconditionally. -/
theorem null_process_handling (force block : Bool) (osRet : Int) (termOk : Bool) :
    SDL_KillProcess_unix none force osRet = ⟨0, true, []⟩ ∧
    SDL_KillProcess_windows none force termOk = ⟨-1, true, []⟩ ∧
    SDL_WaitProcess_unix_api none block = ⟨-1, none, true, none, 0⟩ ∧
    SDL_WaitProcess_windows_api none block = ⟨-1, none, true, none, 0⟩ ∧
    SDL_GetProcessProperties_unix none = (-1, true) ∧
    SDL_GetProcessProperties_windows none = (-1, true) ∧
    SDL_DestroyProcess_unix none = .nullDeref ∧
    SDL_DestroyProcess_windows none = .nullDeref :=
  ⟨rfl, rfl, rfl, rfl, rfl, rfl, rfl, rfl⟩

end SDLSpec
